import Mathlib

/-
Verification of the run-output path / bucket resolution logic of TheRock
(build_tools/_therock_utils/run_outputs.py), shallowly embedded in Lean.

Conventions of the embedding:
- Python strings are Lean `String` (a `List Char` under the hood);
- Python `datetime` values (always UTC here, microseconds zero) are the
  six-field structure `PyDateTime`, compared lexicographically exactly as
  CPython compares two aware datetimes with equal tzinfo;
- fallible Python code (raising ValueError and friends) is embedded as
  `Except String` / `Option` returning functions;
- `os.environ` is the explicit record `Env`; `None` from `os.getenv` is
  `Option.none`;
- the GitHub API call in `_retrieve_bucket_info` is I/O: the embedding takes
  the workflow-run metadata that is available after any fetch as an explicit
  `Option WorkflowRun` argument (it is `none` exactly when neither a
  `workflow_run` dict nor a `workflow_run_id` was supplied).
-/

namespace TheRock

/-- Python `datetime` restricted to the fields produced by parsing with
format `%Y-%m-%dT%H:%M:%SZ` (UTC, microsecond 0). -/
structure PyDateTime where
  year : Nat
  month : Nat
  day : Nat
  hour : Nat
  minute : Nat
  second : Nat
deriving DecidableEq

/-- Comparison `a <= b` of two aware Python datetimes with the same tzinfo:
lexicographic on (year, month, day, hour, minute, second). -/
def PyDateTime.le (a b : PyDateTime) : Bool :=
  if a.year < b.year then true
  else if b.year < a.year then false
  else if a.month < b.month then true
  else if b.month < a.month then false
  else if a.day < b.day then true
  else if b.day < a.day then false
  else if a.hour < b.hour then true
  else if b.hour < a.hour then false
  else if a.minute < b.minute then true
  else if b.minute < a.minute then false
  else decide (a.second ≤ b.second)

/-- Numeric value of an ASCII digit character. -/
def digitVal (c : Char) : Nat := c.toNat - 48

/-- CPython strptime directive `%Y`: exactly four digits. Returns the value
and the unconsumed input. -/
def parse4Digits : List Char → Option (Nat × List Char)
  | c1 :: c2 :: c3 :: c4 :: rest =>
    if c1.isDigit ∧ c2.isDigit ∧ c3.isDigit ∧ c4.isDigit then
      some (((digitVal c1 * 10 + digitVal c2) * 10 + digitVal c3) * 10 + digitVal c4,
        rest)
    else none
  | _ => none

/-- CPython strptime two-or-one digit directives (`%m`, `%d`, `%H`, `%M`,
`%S`).  The CPython regexes for these fields accept either a two digit form
whose value lies in a contiguous range `[lo, hi]`, or a single digit of value
at least `lo` (for the fields used here the next pattern character is a
non-digit literal, so the regex alternation is deterministic). -/
def parseFieldDigits (lo hi : Nat) : List Char → Option (Nat × List Char)
  | c1 :: c2 :: rest =>
    if c1.isDigit then
      if c2.isDigit then
        let v := digitVal c1 * 10 + digitVal c2
        if lo ≤ v ∧ v ≤ hi then some (v, rest) else none
      else
        let v := digitVal c1
        if lo ≤ v then some (v, c2 :: rest) else none
    else none
  | [c1] =>
    if c1.isDigit then
      let v := digitVal c1
      if lo ≤ v then some (v, ([] : List Char)) else none
    else none
  | [] => none

/-- CPython strptime literal character: the compiled pattern carries
`re.IGNORECASE`, so letter literals match both cases. -/
def litChar (c : Char) : List Char → Option (List Char)
  | x :: rest => if x.toLower = c then some rest else none
  | [] => none

/-- Gregorian leap year test, as in the Python `calendar`/`datetime` rules. -/
def isLeapYear (y : Nat) : Bool :=
  (y % 4 == 0 && y % 100 != 0) || y % 400 == 0

/-- Number of days in a month, as validated by the `datetime` constructor. -/
def daysInMonth (y m : Nat) : Nat :=
  if m = 2 then (if isLeapYear y then 29 else 28)
  else if m = 4 ∨ m = 6 ∨ m = 9 ∨ m = 11 then 30
  else 31

/-- The `datetime(...)` constructor validation performed at the end of
`datetime.strptime`: raises (here: `none`) when any field is out of range. -/
def mkPyDateTime (y mo d h mi s : Nat) : Option PyDateTime :=
  if 1 ≤ y ∧ y ≤ 9999 ∧ 1 ≤ mo ∧ mo ≤ 12 ∧ 1 ≤ d ∧ d ≤ daysInMonth y mo
      ∧ h ≤ 23 ∧ mi ≤ 59 ∧ s ≤ 59 then
    some ⟨y, mo, d, h, mi, s⟩
  else none

/-- Embedding of `datetime.strptime(s, "%Y-%m-%dT%H:%M:%SZ")`: `none` exactly
when CPython raises (either because the regex compiled from the format does
not match the whole string, or because the final `datetime` construction
rejects a field).  Field regexes: `%m` = `1[0-2]|0[1-9]|[1-9]`,
`%d` = `3[01]|[12]d|0[1-9]|[1-9]`, `%H` = `2[0-3]|[0-1]d|d`,
`%M` = `[0-5]d|d`, `%S` = `6[0-1]|[0-5]d|d`, matched case-insensitively. -/
def strptimeYmdHMSZ (s : String) : Option PyDateTime := do
  let (y, r1) ← parse4Digits s.data
  let r2 ← litChar '-' r1
  let (mo, r3) ← parseFieldDigits 1 12 r2
  let r4 ← litChar '-' r3
  let (d, r5) ← parseFieldDigits 1 31 r4
  let r6 ← litChar 't' r5
  let (h, r7) ← parseFieldDigits 0 23 r6
  let r8 ← litChar ':' r7
  let (mi, r9) ← parseFieldDigits 0 59 r8
  let r10 ← litChar ':' r9
  let (sec, r11) ← parseFieldDigits 0 61 r10
  let r12 ← litChar 'z' r11
  if r12 = [] then mkPyDateTime y mo d h mi sec else none

/-- Cutover date for the bucket naming change (TheRock issue 2046), the
Python constant `_BUCKET_CUTOVER_DATE = datetime.fromisoformat
("2025-11-11T16:18:48+00:00")`. -/
def BUCKET_CUTOVER_DATE : PyDateTime := ⟨2025, 11, 11, 16, 18, 48⟩

/-- The process environment variables read by `_retrieve_bucket_info`.
`none` means the variable is unset; `some ""` means set to the empty
string (Python distinguishes these through `os.getenv`). -/
structure Env where
  GITHUB_REPOSITORY : Option String
  IS_PR_FROM_FORK : Option String
  RELEASE_TYPE : Option String

/-- The fields of the GitHub API workflow-run object that
`_retrieve_bucket_info` reads. -/
structure WorkflowRun where
  id : String
  head_repository_full_name : String
  updated_at : String

/-- Python `s.split(sep)` for a single-character separator, on character
lists: splits at every occurrence, keeping empty pieces. -/
def splitOnChar (c : Char) : List Char → List (List Char)
  | [] => [[]]
  | x :: xs =>
    let r := splitOnChar c xs
    if x = c then [] :: r
    else
      match r with
      | [] => [[x]]
      | h :: t => (x :: h) :: t

/-- Python `s.split("/")`. -/
def pySplitSlash (s : String) : List String :=
  (splitOnChar '/' s.data).map (fun l => ⟨l⟩)

/-- The tuple unpacking `owner, repo_name = github_repository.split("/")`:
raises ValueError (here `none`) unless the split yields exactly two parts. -/
def splitOwnerRepo (s : String) : Option (String × String) :=
  match pySplitSlash s with
  | [owner, repo_name] => some (owner, repo_name)
  | _ => none

/-- The `github_repository` actually used: the explicit argument if truthy
(Python: `if github_repository:`), otherwise
`os.getenv("GITHUB_REPOSITORY", "ROCm/TheRock")`. -/
def effectiveGithubRepository (env : Env) (arg : Option String) : String :=
  match arg with
  | some r => if r ≠ "" then r else env.GITHUB_REPOSITORY.getD "ROCm/TheRock"
  | none => env.GITHUB_REPOSITORY.getD "ROCm/TheRock"

/-- The environment fallback for fork status when no workflow metadata is
available: `os.getenv("IS_PR_FROM_FORK", "false") == "true"`. -/
def envForkFlag (env : Env) : Bool :=
  decide (env.IS_PR_FROM_FORK.getD "false" = "true")

/-- Computation of `external_repo`: empty for the canonical non-fork repository, otherwise
the hyphen-joined owner and name with a trailing slash. -/
def externalRepoOf (owner repo_name : String) (is_pr_from_fork : Bool) : String :=
  if repo_name = "TheRock" ∧ owner = "ROCm" ∧ is_pr_from_fork = false then ""
  else owner ++ "-" ++ repo_name ++ "/"

/-- Python truthiness of `os.getenv("RELEASE_TYPE")`: a set, non-empty
string. -/
def optTruthy : Option String → Bool
  | some s => decide (s ≠ "")
  | none => false

/-- The legacy-date test `curr_commit_dt and curr_commit_dt <=
_BUCKET_CUTOVER_DATE` (a datetime object is always truthy, `None` is
falsy). -/
def isLegacyDate : Option PyDateTime → Bool
  | some dt => PyDateTime.le dt BUCKET_CUTOVER_DATE
  | none => false

/-- The bucket-selection conditional of `_retrieve_bucket_info`, after the
metadata and repository-splitting steps. -/
def selectBucket (release_type : Option String) (owner repo_name : String)
    (is_pr_from_fork : Bool) (external_repo : String)
    (curr_commit_dt : Option PyDateTime) : String :=
  if optTruthy release_type then
    "therock-" ++ release_type.getD "" ++ "-artifacts"
  else if external_repo = "" then
    (if isLegacyDate curr_commit_dt then "therock-artifacts"
      else "therock-ci-artifacts")
  else if repo_name = "therock-releases-internal" ∧ owner = "ROCm"
      ∧ is_pr_from_fork = false then
    "therock-artifacts-internal"
  else
    (if isLegacyDate curr_commit_dt then "therock-artifacts-external"
      else "therock-ci-artifacts-external")

/-- The tail of `_retrieve_bucket_info` from the `owner, repo_name = ...`
unpacking on: computes `external_repo` and the bucket. -/
def afterMeta (env : Env) (github_repository : String)
    (is_pr_from_fork : Bool) (curr_commit_dt : Option PyDateTime) :
    Except String (String × String) :=
  match splitOwnerRepo github_repository with
  | none => Except.error "ValueError: values to unpack from owner/repo"
  | some (owner, repo_name) =>
    let external_repo := externalRepoOf owner repo_name is_pr_from_fork
    Except.ok (external_repo,
      selectBucket env.RELEASE_TYPE owner repo_name is_pr_from_fork
        external_repo curr_commit_dt)

/-- Embedding of `_retrieve_bucket_info`.  `workflow_run` is the metadata
available after any API fetch (`none` iff neither `workflow_run` nor
`workflow_run_id` was supplied).  Returns `(external_repo, bucket)` or the
raised error; the strptime error is raised before the owner/repo unpacking,
matching the statement order of the source. -/
def retrieve_bucket_info (env : Env) (github_repository_arg : Option String)
    (workflow_run : Option WorkflowRun) : Except String (String × String) :=
  let github_repository := effectiveGithubRepository env github_repository_arg
  match workflow_run with
  | some w =>
    match strptimeYmdHMSZ w.updated_at with
    | some dt =>
      afterMeta env github_repository
        (decide (w.head_repository_full_name ≠ github_repository)) (some dt)
    | none =>
      Except.error "ValueError: time data does not match format Y-m-dTH:M:SZ"
  | none => afterMeta env github_repository (envForkFlag env) none

/-- The frozen dataclass `RunOutputRoot`: root location for the outputs of a
workflow run, holding the four immutable fields. -/
structure RunOutputRoot where
  bucket : String
  external_repo : String
  run_id : String
  platform : String
deriving DecidableEq

/-- The `prefix` property: S3 key prefix for the run,
`f"{self.external_repo}{self.run_id}-{self.platform}"`.  (Named `prefixKey`
here because the source name collides with a Lean keyword.) -/
def RunOutputRoot.prefixKey (r : RunOutputRoot) : String :=
  r.external_repo ++ r.run_id ++ "-" ++ r.platform

/-- The `s3_uri` property: `f"s3://{self.bucket}/{self.prefix}"`. -/
def RunOutputRoot.s3_uri (r : RunOutputRoot) : String :=
  "s3://" ++ r.bucket ++ "/" ++ r.prefixKey

/-- The `https_url` property:
`f"https://{self.bucket}.s3.amazonaws.com/{self.prefix}"`. -/
def RunOutputRoot.https_url (r : RunOutputRoot) : String :=
  "https://" ++ r.bucket ++ ".s3.amazonaws.com/" ++ r.prefixKey

/-- Accessor `artifact_s3_key`: `f"{self.prefix}/{filename}"`. -/
def RunOutputRoot.artifact_s3_key (r : RunOutputRoot) (filename : String) : String :=
  r.prefixKey ++ "/" ++ filename

/-- Accessor `artifact_s3_uri`: `f"{self.s3_uri}/{filename}"`. -/
def RunOutputRoot.artifact_s3_uri (r : RunOutputRoot) (filename : String) : String :=
  r.s3_uri ++ "/" ++ filename

/-- Accessor `artifact_https_url`: `f"{self.https_url}/{filename}"`. -/
def RunOutputRoot.artifact_https_url (r : RunOutputRoot) (filename : String) : String :=
  r.https_url ++ "/" ++ filename

/-- Accessor `artifact_index_s3_key`: `f"{self.prefix}/index-{artifact_group}.html"`. -/
def RunOutputRoot.artifact_index_s3_key (r : RunOutputRoot) (artifact_group : String) : String :=
  r.prefixKey ++ "/index-" ++ artifact_group ++ ".html"

/-- Accessor `artifact_index_s3_uri`:
`f"s3://{self.bucket}/{self.artifact_index_s3_key(artifact_group)}"`. -/
def RunOutputRoot.artifact_index_s3_uri (r : RunOutputRoot) (artifact_group : String) : String :=
  "s3://" ++ r.bucket ++ "/" ++ r.artifact_index_s3_key artifact_group

/-- Accessor `artifact_index_url`: `f"{self.https_url}/index-{artifact_group}.html"`. -/
def RunOutputRoot.artifact_index_url (r : RunOutputRoot) (artifact_group : String) : String :=
  r.https_url ++ "/index-" ++ artifact_group ++ ".html"

/-- Accessor `logs_prefix`: `f"{self.prefix}/logs/{artifact_group}"` (source name ends
in a Lean keyword, hence the `_key` suffix). -/
def RunOutputRoot.logs_prefix_key (r : RunOutputRoot) (artifact_group : String) : String :=
  r.prefixKey ++ "/logs/" ++ artifact_group

/-- Accessor `logs_s3_uri`: `f"s3://{self.bucket}/{self.logs_prefix(artifact_group)}"`. -/
def RunOutputRoot.logs_s3_uri (r : RunOutputRoot) (artifact_group : String) : String :=
  "s3://" ++ r.bucket ++ "/" ++ r.logs_prefix_key artifact_group

/-- Accessor `logs_https_url`: `f"{self.https_url}/logs/{artifact_group}"`. -/
def RunOutputRoot.logs_https_url (r : RunOutputRoot) (artifact_group : String) : String :=
  r.https_url ++ "/logs/" ++ artifact_group

/-- Accessor `log_file_s3_key`: `f"{self.logs_prefix(artifact_group)}/{filename}"`. -/
def RunOutputRoot.log_file_s3_key (r : RunOutputRoot) (artifact_group filename : String) : String :=
  r.logs_prefix_key artifact_group ++ "/" ++ filename

/-- Accessor `log_index_url`: `f"{self.logs_https_url(artifact_group)}/index.html"`. -/
def RunOutputRoot.log_index_url (r : RunOutputRoot) (artifact_group : String) : String :=
  r.logs_https_url artifact_group ++ "/index.html"

/-- Accessor `build_time_analysis_url`:
`f"{self.logs_https_url(artifact_group)}/build_time_analysis.html"`. -/
def RunOutputRoot.build_time_analysis_url (r : RunOutputRoot) (artifact_group : String) : String :=
  r.logs_https_url artifact_group ++ "/build_time_analysis.html"

/-- Accessor `manifests_prefix`: `f"{self.prefix}/manifests/{artifact_group}"`. -/
def RunOutputRoot.manifests_prefix_key (r : RunOutputRoot) (artifact_group : String) : String :=
  r.prefixKey ++ "/manifests/" ++ artifact_group

/-- Accessor `manifest_s3_key`:
`f"{self.manifests_prefix(artifact_group)}/therock_manifest.json"`. -/
def RunOutputRoot.manifest_s3_key (r : RunOutputRoot) (artifact_group : String) : String :=
  r.manifests_prefix_key artifact_group ++ "/therock_manifest.json"

/-- Accessor `manifest_s3_uri`:
`f"s3://{self.bucket}/{self.manifest_s3_key(artifact_group)}"`. -/
def RunOutputRoot.manifest_s3_uri (r : RunOutputRoot) (artifact_group : String) : String :=
  "s3://" ++ r.bucket ++ "/" ++ r.manifest_s3_key artifact_group

/-- Accessor `manifest_url`:
`f"{self.https_url}/manifests/{artifact_group}/therock_manifest.json"`. -/
def RunOutputRoot.manifest_url (r : RunOutputRoot) (artifact_group : String) : String :=
  r.https_url ++ "/manifests/" ++ artifact_group ++ "/therock_manifest.json"

/-- Modelled from the spec: the python-packages accessor of `RunOutputRoot`
(spec section 4.2: subpath `python/{artifact_group}/{filename}`); the method
itself is absent from the provided sources. -/
def RunOutputRoot.python_package_s3_key (r : RunOutputRoot)
    (artifact_group filename : String) : String :=
  r.prefixKey ++ "/python/" ++ artifact_group ++ "/" ++ filename

/-- Modelled from the spec: the native-packages accessor of `RunOutputRoot`
(spec section 4.2: subpath `packages/{artifact_group}/{filename}`); the
method itself is absent from the provided sources. -/
def RunOutputRoot.package_s3_key (r : RunOutputRoot)
    (artifact_group filename : String) : String :=
  r.prefixKey ++ "/packages/" ++ artifact_group ++ "/" ++ filename

/-- Modelled from the spec: the reports accessor of `RunOutputRoot`
(spec section 4.2: subpath `reports/{artifact_group}/{filename}`); the
method itself is absent from the provided sources. -/
def RunOutputRoot.report_s3_key (r : RunOutputRoot)
    (artifact_group filename : String) : String :=
  r.prefixKey ++ "/reports/" ++ artifact_group ++ "/" ++ filename

/-- Does a string begin with a slash (pathlib: is it an absolute POSIX
path)? -/
def startsWithSlash (s : String) : Bool :=
  match s.data with
  | c :: _ => decide (c = '/')
  | [] => false

/-- Path components of a string under pathlib parsing: split on slashes,
dropping empty components and single-dot components. -/
def pathSegments (s : String) : List String :=
  ((splitOnChar '/' s.data).filter
    (fun l => decide (l ≠ [] ∧ l ≠ ['.']))).map (fun l => ⟨l⟩)

/-- Model of `pathlib.PurePosixPath`: an absolute flag plus the parsed
components. -/
structure PurePosixPath where
  absolute : Bool
  parts : List String
deriving DecidableEq

/-- Constructor `PurePosixPath(s)`. -/
def PurePosixPath.ofString (s : String) : PurePosixPath :=
  ⟨startsWithSlash s, pathSegments s⟩

/-- The pathlib `/` operator with a string right operand: an absolute right
operand replaces the whole path, a relative one appends its components. -/
def PurePosixPath.join (p : PurePosixPath) (s : String) : PurePosixPath :=
  if startsWithSlash s then PurePosixPath.ofString s
  else ⟨p.absolute, p.parts ++ pathSegments s⟩

/-- Boolean list-prefix test over path components. -/
def listIsPrefixOf : List String → List String → Bool
  | [], _ => true
  | _ :: _, [] => false
  | a :: as, b :: bs => decide (a = b) && listIsPrefixOf as bs

/-- Method `p.relative_to(base)`: the remainder of `p` past `base`, or `none` when
pathlib raises ValueError because `p` is not rooted below `base`. -/
def PurePosixPath.relative_to (p base : PurePosixPath) : Option PurePosixPath :=
  if p.absolute = base.absolute ∧ listIsPrefixOf base.parts p.parts = true then
    some ⟨false, p.parts.drop base.parts.length⟩
  else none

/-- Method `local_path`: `staging_dir / self.prefix`. -/
def RunOutputRoot.local_path (r : RunOutputRoot) (staging_dir : PurePosixPath) :
    PurePosixPath :=
  staging_dir.join r.prefixKey

/-- Python `str.strip()` (whitespace strip on both ends). -/
def pyStrip (s : String) : String :=
  ⟨((s.data.dropWhile Char.isWhitespace).reverse.dropWhile
      Char.isWhitespace).reverse⟩

/-- Python `str.lower()` for the ASCII strings involved here. -/
def pyLower (s : String) : String :=
  ⟨s.data.map Char.toLower⟩

/-- Embedding of `str2bool` from
build_tools/github_actions/github_actions_utils.py: strict boolean parsing
of environment strings, raising ValueError (here `Except.error`) on
unrecognised values. -/
def str2bool (value : Option String) : Except String Bool :=
  match value with
  | none => Except.ok false
  | some v =>
    if v = "" then Except.ok false
    else
      let w := pyLower (pyStrip v)
      if w ∈ (["1", "true", "t", "yes", "y", "on", "enable", "enabled",
          "found"] : List String) then
        Except.ok true
      else if w ∈ (["0", "false", "f", "no", "n", "off", "disable",
          "disabled", "notfound", "none", "null", "nil", "undefined",
          "n/a"] : List String) then
        Except.ok false
      else
        Except.error ("Invalid string value for boolean conversion: " ++ w)

/-- The four fields of the frozen dataclass. -/
inductive RunOutputField
  | bucket
  | external_repo
  | run_id
  | platform
deriving DecidableEq

/-- Name of a `RunOutputRoot` field. -/
def RunOutputField.name : RunOutputField → String
  | .bucket => "bucket"
  | .external_repo => "external_repo"
  | .run_id => "run_id"
  | .platform => "platform"

/-- CPython semantics of attribute assignment on a `@dataclass(frozen=True)`
instance: the generated `__setattr__` unconditionally raises
`FrozenInstanceError` and the object is left untouched.  The first component
is the outcome of the attempted assignment, the second is the object as it
stands afterwards. -/
def RunOutputRoot.attemptSetField (r : RunOutputRoot) (f : RunOutputField)
    (v : String) : Except String Unit × RunOutputRoot :=
  (Except.error ("FrozenInstanceError: cannot assign to field " ++ f.name
    ++ " value " ++ v), r)

/-- Written from the claim wording, for comparison with the code: the
exactly zero-padded timestamp shape YYYY-MM-DDTHH:MM:SSZ (4-2-2-2-2-2
digits with literal separators). -/
def isStrictPaddedTimestamp (s : String) : Bool :=
  match s.data with
  | [y1, y2, y3, y4, c1, m1, m2, c2, d1, d2, c3, h1, h2, c4, n1, n2, c5,
      s1, s2, c6] =>
    y1.isDigit && y2.isDigit && y3.isDigit && y4.isDigit &&
    decide (c1 = '-') && m1.isDigit && m2.isDigit && decide (c2 = '-') &&
    d1.isDigit && d2.isDigit && decide (c3 = 'T') &&
    h1.isDigit && h2.isDigit && decide (c4 = ':') &&
    n1.isDigit && n2.isDigit && decide (c5 = ':') &&
    s1.isDigit && s2.isDigit && decide (c6 = 'Z')
  | _ => false

/-- Strings with equal character data are equal. -/
theorem string_data_inj {a b : String} (h : a.data = b.data) : a = b := by
  cases a
  cases b
  simp only at h
  rw [h]

/-- The namespacing formula always ends in a slash, hence is never empty. -/
theorem extRepoFormula_ne_empty (o n : String) : o ++ "-" ++ n ++ "/" ≠ "" := by
  intro h
  have hd := congrArg String.data h
  simp only [String.data_append] at hd
  simp at hd

/-- Inversion for the tail of the resolution: a successful result determines
`external_repo` and the bucket through the split repository name. -/
theorem afterMeta_ok_exists {env : Env} {repo : String} {fork : Bool}
    {dtOpt : Option PyDateTime} {ext bucket : String}
    (h : afterMeta env repo fork dtOpt = Except.ok (ext, bucket)) :
    ∃ owner name, splitOwnerRepo repo = some (owner, name) ∧
      ext = externalRepoOf owner name fork ∧
      bucket = selectBucket env.RELEASE_TYPE owner name fork ext dtOpt := by
  unfold afterMeta at h
  cases hs : splitOwnerRepo repo with
  | none => rw [hs] at h; cases h
  | some p =>
    obtain ⟨o, n⟩ := p
    rw [hs] at h
    simp only [Except.ok.injEq, Prod.mk.injEq] at h
    obtain ⟨he, hb⟩ := h
    exact ⟨o, n, rfl, he.symm, by rw [← he, ← hb]⟩

/-- Inversion for a resolution with workflow metadata present: the timestamp
parsed and the tail ran with the computed fork status. -/
theorem retrieve_some_ok {env : Env} {gh : Option String} {w : WorkflowRun}
    {ext bucket : String}
    (h : retrieve_bucket_info env gh (some w) = Except.ok (ext, bucket)) :
    ∃ dt, strptimeYmdHMSZ w.updated_at = some dt ∧
      afterMeta env (effectiveGithubRepository env gh)
        (decide (w.head_repository_full_name ≠ effectiveGithubRepository env gh))
        (some dt) = Except.ok (ext, bucket) := by
  have h' : (match strptimeYmdHMSZ w.updated_at with
      | some dt => afterMeta env (effectiveGithubRepository env gh)
          (decide (w.head_repository_full_name ≠
            effectiveGithubRepository env gh)) (some dt)
      | none => (Except.error
          "ValueError: time data does not match format Y-m-dTH:M:SZ" :
          Except String (String × String))) = Except.ok (ext, bucket) := h
  cases hp : strptimeYmdHMSZ w.updated_at with
  | none =>
    rw [hp] at h'
    exact Except.noConfusion h'
  | some dt =>
    rw [hp] at h'
    exact ⟨dt, rfl, h'⟩

/-- Resolution without workflow metadata runs the tail on the environment
fork flag and no commit date. -/
theorem retrieve_none_eq (env : Env) (gh : Option String) :
    retrieve_bucket_info env gh none =
      afterMeta env (effectiveGithubRepository env gh) (envForkFlag env) none := rfl

/-- Bucket selection with `RELEASE_TYPE` unset, outside the
internal-releases branch: the legacy date test decides between the legacy
and current bucket pair, with the pair member picked by `external_repo`. -/
theorem selectBucket_noRelease {owner name : String} {fork : Bool}
    {ext : String} {dtOpt : Option PyDateTime}
    (hni : ¬ (name = "therock-releases-internal" ∧ owner = "ROCm"
      ∧ fork = false)) :
    selectBucket none owner name fork ext dtOpt =
      if isLegacyDate dtOpt then
        (if ext = "" then "therock-artifacts" else "therock-artifacts-external")
      else
        (if ext = "" then "therock-ci-artifacts"
          else "therock-ci-artifacts-external") := by
  unfold selectBucket optTruthy
  by_cases he : ext = "" <;> by_cases hl : isLegacyDate dtOpt <;>
    simp [he, hl, hni]

/-- Bucket selection with `RELEASE_TYPE` set to a non-empty string is the
release-type bucket, unconditionally. -/
theorem selectBucket_release {rt : String} {owner name : String} {fork : Bool}
    {ext : String} {dtOpt : Option PyDateTime} (hne : rt ≠ "") :
    selectBucket (some rt) owner name fork ext dtOpt =
      "therock-" ++ rt ++ "-artifacts" := by
  unfold selectBucket
  simp [optTruthy, hne]

/-- C1 (amended): for a resolution with RELEASE_TYPE unset, outside the
internal-releases repository, the bucket is the legacy name
("therock-artifacts" when external_repo is empty, otherwise
"therock-artifacts-external") exactly when workflow metadata is present and
the parsed updated_at is at-or-before the cutover instant; when the parsed
updated_at is strictly after the cutover, or when no workflow metadata and
no run ID are available, the bucket is the corresponding non-legacy name. -/
theorem bucket_cutover_rule
    (env : Env) (gh : Option String) (wr : Option WorkflowRun)
    (owner name ext bucket : String)
    (hrt : env.RELEASE_TYPE = none)
    (hsplit : splitOwnerRepo (effectiveGithubRepository env gh) =
      some (owner, name))
    (hni : ¬ (owner = "ROCm" ∧ name = "therock-releases-internal"))
    (hok : retrieve_bucket_info env gh wr = Except.ok (ext, bucket)) :
    (∀ w dt, wr = some w → strptimeYmdHMSZ w.updated_at = some dt →
      bucket = (if PyDateTime.le dt BUCKET_CUTOVER_DATE then
          (if ext = "" then "therock-artifacts"
            else "therock-artifacts-external")
        else
          (if ext = "" then "therock-ci-artifacts"
            else "therock-ci-artifacts-external"))) ∧
    (wr = none →
      bucket = (if ext = "" then "therock-ci-artifacts"
        else "therock-ci-artifacts-external")) := by
  have hni' : ∀ f : Bool, ¬ (name = "therock-releases-internal"
      ∧ owner = "ROCm" ∧ f = false) := by
    intro f hc
    exact hni ⟨hc.2.1, hc.1⟩
  constructor
  · intro w dt hw hdt
    subst hw
    obtain ⟨dt', hp, ha⟩ := retrieve_some_ok hok
    rw [hdt] at hp
    obtain rfl := Option.some.inj hp
    obtain ⟨o, n, hs, he, hb⟩ := afterMeta_ok_exists ha
    rw [hsplit] at hs
    simp only [Option.some.injEq, Prod.mk.injEq] at hs
    obtain ⟨rfl, rfl⟩ := hs
    rw [hb, hrt, selectBucket_noRelease (hni' _)]
    simp [isLegacyDate]
  · intro hw
    subst hw
    rw [retrieve_none_eq] at hok
    obtain ⟨o, n, hs, he, hb⟩ := afterMeta_ok_exists hok
    rw [hsplit] at hs
    simp only [Option.some.injEq, Prod.mk.injEq] at hs
    obtain ⟨rfl, rfl⟩ := hs
    rw [hb, hrt, selectBucket_noRelease (hni' _)]
    simp [isLegacyDate]

/-- C1 counterexample: for a workflow run whose updated_at is exactly the
cutover instant, the code still picks the legacy bucket (the comparison in
the source is a non-strict one), while the claim says that at-or-after the
cutover the bucket is the non-legacy name "therock-ci-artifacts". -/
theorem bucket_cutover_rule_counterexample :
    strptimeYmdHMSZ "2025-11-11T16:18:48Z" = some BUCKET_CUTOVER_DATE ∧
    retrieve_bucket_info ⟨none, none, none⟩ none
      (some ⟨"1", "ROCm/TheRock", "2025-11-11T16:18:48Z"⟩) =
      Except.ok ("", "therock-artifacts") ∧
    "therock-artifacts" ≠ "therock-ci-artifacts" :=
  ⟨rfl, rfl, by decide⟩

/-- Witness for C1: a run dated 2025-10-01, before the cutover, on the
canonical repository, resolves to the legacy bucket. -/
theorem bucket_cutover_rule_witness :
    retrieve_bucket_info ⟨none, none, none⟩ (some "ROCm/TheRock")
      (some ⟨"12345678901", "ROCm/TheRock", "2025-10-01T12:00:00Z"⟩) =
      Except.ok ("", "therock-artifacts") ∧
    ("therock-artifacts" : String) =
      (if PyDateTime.le ⟨2025, 10, 1, 12, 0, 0⟩ BUCKET_CUTOVER_DATE then
        (if ("" : String) = "" then "therock-artifacts"
          else "therock-artifacts-external")
      else
        (if ("" : String) = "" then "therock-ci-artifacts"
          else "therock-ci-artifacts-external")) :=
  ⟨rfl,
    (bucket_cutover_rule ⟨none, none, none⟩ (some "ROCm/TheRock")
      (some ⟨"12345678901", "ROCm/TheRock", "2025-10-01T12:00:00Z"⟩)
      "ROCm" "TheRock" "" "therock-artifacts" rfl rfl (by decide) rfl).1
      ⟨"12345678901", "ROCm/TheRock", "2025-10-01T12:00:00Z"⟩
      ⟨2025, 10, 1, 12, 0, 0⟩ rfl rfl⟩

/-- C2 (amended): whenever the RELEASE_TYPE environment variable is set to a
non-empty string, a successful resolution returns the bucket
"therock-{release_type}-artifacts", regardless of repository, fork status or
commit date. -/
theorem release_type_override
    (env : Env) (gh : Option String) (wr : Option WorkflowRun)
    (rt ext bucket : String)
    (hrt : env.RELEASE_TYPE = some rt) (hne : rt ≠ "")
    (hok : retrieve_bucket_info env gh wr = Except.ok (ext, bucket)) :
    bucket = "therock-" ++ rt ++ "-artifacts" := by
  cases wr with
  | some w =>
    obtain ⟨dt, hp, ha⟩ := retrieve_some_ok hok
    obtain ⟨o, n, hs, he, hb⟩ := afterMeta_ok_exists ha
    rw [hb, hrt, selectBucket_release hne]
  | none =>
    rw [retrieve_none_eq] at hok
    obtain ⟨o, n, hs, he, hb⟩ := afterMeta_ok_exists hok
    rw [hb, hrt, selectBucket_release hne]

/-- C2 counterexample: with RELEASE_TYPE set to the empty string (set, but
falsy in Python), the resolution ignores the release override and returns
the ci bucket, not "therock--artifacts" as the claim would require. -/
theorem release_type_override_counterexample :
    retrieve_bucket_info ⟨none, none, some ""⟩ none none =
      Except.ok ("", "therock-ci-artifacts") ∧
    ("therock-ci-artifacts" : String) ≠ "therock-" ++ "" ++ "-artifacts" :=
  ⟨rfl, by decide⟩

/-- Witness for C2: RELEASE_TYPE=nightly forces the nightly bucket. -/
theorem release_type_override_witness :
    retrieve_bucket_info ⟨none, none, some "nightly"⟩ none none =
      Except.ok ("", "therock-nightly-artifacts") ∧
    ("therock-nightly-artifacts" : String) =
      "therock-" ++ "nightly" ++ "-artifacts" :=
  ⟨rfl,
    release_type_override ⟨none, none, some "nightly"⟩ none none
      "nightly" "" "therock-nightly-artifacts" rfl (by decide) rfl⟩

/-- C3: with workflow metadata available, external_repo is empty exactly when
the repository is owner "ROCm", name "TheRock" and the head repository of the
run equals the repository (not a fork); in every other case it is the
hyphen-joined "{owner}-{name}/". -/
theorem namespace_prefix_rule
    (env : Env) (gh : Option String) (w : WorkflowRun)
    (owner name ext bucket : String)
    (hsplit : splitOwnerRepo (effectiveGithubRepository env gh) =
      some (owner, name))
    (hok : retrieve_bucket_info env gh (some w) = Except.ok (ext, bucket)) :
    (ext = "" ↔ (owner = "ROCm" ∧ name = "TheRock" ∧
      w.head_repository_full_name = effectiveGithubRepository env gh)) ∧
    (ext ≠ "" → ext = owner ++ "-" ++ name ++ "/") := by
  obtain ⟨dt, hp, ha⟩ := retrieve_some_ok hok
  obtain ⟨o, n, hs, he, hb⟩ := afterMeta_ok_exists ha
  rw [hsplit] at hs
  simp only [Option.some.injEq, Prod.mk.injEq] at hs
  obtain ⟨rfl, rfl⟩ := hs
  rw [he]
  unfold externalRepoOf
  by_cases hc : name = "TheRock" ∧ owner = "ROCm" ∧
      decide (w.head_repository_full_name ≠
        effectiveGithubRepository env gh) = false
  · rw [if_pos hc]
    refine ⟨⟨fun _ => ⟨hc.2.1, hc.1, ?_⟩, fun _ => rfl⟩,
      fun hne => absurd rfl hne⟩
    have := hc.2.2
    simpa using this
  · rw [if_neg hc]
    refine ⟨⟨fun habs => absurd habs (extRepoFormula_ne_empty owner name),
      fun hrhs => ?_⟩, fun _ => rfl⟩
    exact absurd ⟨hrhs.2.1, hrhs.1, by simp [hrhs.2.2]⟩ hc

/-- Witness for C3: the canonical repository with a non-fork run yields the
empty namespace and the iff holds with both sides true. -/
theorem namespace_prefix_rule_witness :
    splitOwnerRepo (effectiveGithubRepository ⟨none, none, none⟩
      (some "ROCm/TheRock")) = some ("ROCm", "TheRock") ∧
    ((("" : String) = "" ↔ (("ROCm" : String) = "ROCm" ∧
        ("TheRock" : String) = "TheRock" ∧
        ("ROCm/TheRock" : String) =
          effectiveGithubRepository ⟨none, none, none⟩ (some "ROCm/TheRock"))) ∧
      (("" : String) ≠ "" → ("" : String) = "ROCm" ++ "-" ++ "TheRock" ++ "/")) :=
  ⟨rfl,
    namespace_prefix_rule ⟨none, none, none⟩ (some "ROCm/TheRock")
      ⟨"1", "ROCm/TheRock", "2025-12-01T12:00:00Z"⟩
      "ROCm" "TheRock" "" "therock-ci-artifacts" rfl rfl⟩

/-- C4: the universal prefix rule
prefix = "{external_repo}{run_id}-{platform}", the exact category subpaths of
the layout table for every key accessor, and the two literal examples from
the spec. -/
theorem path_derivation (r : RunOutputRoot) (filename artifact_group : String) :
    r.prefixKey = r.external_repo ++ r.run_id ++ "-" ++ r.platform ∧
    r.artifact_s3_key filename = r.prefixKey ++ "/" ++ filename ∧
    r.artifact_index_s3_key artifact_group =
      r.prefixKey ++ "/" ++ ("index-" ++ artifact_group ++ ".html") ∧
    r.logs_prefix_key artifact_group =
      r.prefixKey ++ "/" ++ ("logs/" ++ artifact_group) ∧
    r.log_file_s3_key artifact_group filename =
      r.prefixKey ++ "/" ++ ("logs/" ++ artifact_group ++ "/" ++ filename) ∧
    r.manifests_prefix_key artifact_group =
      r.prefixKey ++ "/" ++ ("manifests/" ++ artifact_group) ∧
    r.manifest_s3_key artifact_group =
      r.prefixKey ++ "/" ++
        ("manifests/" ++ artifact_group ++ "/therock_manifest.json") ∧
    (RunOutputRoot.mk "therock-ci-artifacts" "" "12345678901"
        "linux").artifact_s3_key "blas_lib_gfx94X.tar.xz" =
      "12345678901-linux/blas_lib_gfx94X.tar.xz" ∧
    (RunOutputRoot.mk "therock-ci-artifacts" "" "12345678901"
        "linux").manifest_s3_key "gfx94X-dcgpu" =
      "12345678901-linux/manifests/gfx94X-dcgpu/therock_manifest.json" := by
  refine ⟨rfl, rfl, ?_, ?_, ?_, ?_, ?_, rfl, rfl⟩ <;>
    simp only [RunOutputRoot.artifact_index_s3_key,
      RunOutputRoot.logs_prefix_key, RunOutputRoot.log_file_s3_key,
      RunOutputRoot.manifests_prefix_key, RunOutputRoot.manifest_s3_key,
      show ("/index-" : String) = "/" ++ "index-" from rfl,
      show ("/logs/" : String) = "/" ++ "logs/" from rfl,
      show ("/manifests/" : String) = "/" ++ "manifests/" from rfl,
      String.append_assoc]

/-- C5: the python-package, native-package and report accessors (modelled
from the spec, absent from the provided sources) return the table subpaths
python/{g}/{f}, packages/{g}/{f} and reports/{g}/{f} under the prefix. -/
theorem category_completeness (r : RunOutputRoot)
    (artifact_group filename : String) :
    r.python_package_s3_key artifact_group filename =
      r.prefixKey ++ "/" ++ ("python/" ++ artifact_group ++ "/" ++ filename) ∧
    r.package_s3_key artifact_group filename =
      r.prefixKey ++ "/" ++ ("packages/" ++ artifact_group ++ "/" ++ filename) ∧
    r.report_s3_key artifact_group filename =
      r.prefixKey ++ "/" ++ ("reports/" ++ artifact_group ++ "/" ++ filename) := by
  refine ⟨?_, ?_, ?_⟩ <;>
    simp only [RunOutputRoot.python_package_s3_key,
      RunOutputRoot.package_s3_key, RunOutputRoot.report_s3_key,
      show ("/python/" : String) = "/" ++ "python/" from rfl,
      show ("/packages/" : String) = "/" ++ "packages/" from rfl,
      show ("/reports/" : String) = "/" ++ "reports/" from rfl,
      String.append_assoc]

/-- C9: attempting to reassign any field of a constructed RunOutputRoot
fails with a FrozenInstanceError, the object afterwards is unchanged (so
every accessor output is unchanged), and accessors are pure: two calls with
the same arguments agree definitionally. -/
theorem immutability_and_determinism (r : RunOutputRoot) (f : RunOutputField)
    (v : String) :
    (r.attemptSetField f v).1 =
      Except.error ("FrozenInstanceError: cannot assign to field " ++ f.name
        ++ " value " ++ v) ∧
    (r.attemptSetField f v).2 = r ∧
    (∀ g fn, (r.attemptSetField f v).2.artifact_s3_key fn =
        r.artifact_s3_key fn ∧
      (r.attemptSetField f v).2.manifest_s3_key g = r.manifest_s3_key g ∧
      (r.attemptSetField f v).2.s3_uri = r.s3_uri ∧
      (r.attemptSetField f v).2.prefixKey = r.prefixKey) ∧
    (∀ g fn, r.artifact_s3_key fn = r.artifact_s3_key fn ∧
      r.manifest_s3_key g = r.manifest_s3_key g) :=
  ⟨rfl, rfl, fun _ _ => ⟨rfl, rfl, rfl, rfl⟩, fun _ _ => ⟨rfl, rfl⟩⟩

/-- A list prefix test always succeeds against the list extended on the
right. -/
theorem listIsPrefixOf_append (xs ys : List String) :
    listIsPrefixOf xs (xs ++ ys) = true := by
  induction xs with
  | nil => rfl
  | cons a as ih => simp [listIsPrefixOf, ih]

/-- C6 (amended): for every RunOutputRoot whose prefix is a relative path
(it does not begin with a slash) and every staging directory, the local path
is staging/prefix and stripping the staging directory gives back exactly the
prefix interpreted as a path; and s3_uri is "s3://{bucket}/{prefix}". -/
theorem local_cloud_symmetry (r : RunOutputRoot) (staging : PurePosixPath)
    (h : startsWithSlash r.prefixKey = false) :
    (r.local_path staging).relative_to staging =
      some (PurePosixPath.ofString r.prefixKey) ∧
    r.s3_uri = "s3://" ++ r.bucket ++ "/" ++ r.prefixKey := by
  refine ⟨?_, rfl⟩
  unfold RunOutputRoot.local_path PurePosixPath.join
  rw [if_neg (by simp [h])]
  unfold PurePosixPath.relative_to
  rw [if_pos ⟨rfl, listIsPrefixOf_append _ _⟩]
  simp [PurePosixPath.ofString, h, List.drop_left]

/-- C6 counterexample: with external_repo = "/" the prefix "/1-linux" is an
absolute path, so pathlib joining discards the staging directory and
relative_to raises ValueError (here: returns none), not the prefix. -/
theorem local_cloud_symmetry_counterexample :
    ((RunOutputRoot.mk "local" "/" "1" "linux").local_path
        (PurePosixPath.ofString "/tmp/staging")).relative_to
      (PurePosixPath.ofString "/tmp/staging") = none ∧
    (none : Option PurePosixPath) ≠
      some (PurePosixPath.ofString
        (RunOutputRoot.mk "local" "/" "1" "linux").prefixKey) := by
  exact ⟨rfl, by simp⟩

/-- Witness for C6: a concrete local root under /tmp/staging. -/
theorem local_cloud_symmetry_witness :
    startsWithSlash
      (RunOutputRoot.mk "local" "" "local-123" "linux").prefixKey = false ∧
    ((RunOutputRoot.mk "local" "" "local-123" "linux").local_path
        (PurePosixPath.ofString "/tmp/staging")).relative_to
      (PurePosixPath.ofString "/tmp/staging") =
      some (PurePosixPath.ofString
        (RunOutputRoot.mk "local" "" "local-123" "linux").prefixKey) ∧
    (RunOutputRoot.mk "local" "" "local-123" "linux").s3_uri =
      "s3://" ++ "local" ++ "/" ++
        (RunOutputRoot.mk "local" "" "local-123" "linux").prefixKey :=
  ⟨rfl,
    (local_cloud_symmetry (RunOutputRoot.mk "local" "" "local-123" "linux")
      (PurePosixPath.ofString "/tmp/staging") rfl).1,
    (local_cloud_symmetry (RunOutputRoot.mk "local" "" "local-123" "linux")
      (PurePosixPath.ofString "/tmp/staging") rfl).2⟩

/-- Splitting a character list at a separator occurring in neither chunk
determines both chunks. -/
theorem sepChunks_inj : ∀ (a b x y : List Char),
    '-' ∉ a → '-' ∉ b → a ++ '-' :: x = b ++ '-' :: y → a = b ∧ x = y
  | [], [], x, y, _, _, h => by simpa using h
  | [], c :: bs, x, y, _, hb, h => by
    simp only [List.nil_append, List.cons_append, List.cons.injEq] at h
    exact absurd (by rw [h.1]; exact List.mem_cons_self _ _) hb
  | c :: as, [], x, y, ha, _, h => by
    simp only [List.cons_append, List.nil_append, List.cons.injEq] at h
    exact absurd (by rw [← h.1]; exact List.mem_cons_self _ _) ha
  | c :: as, d :: bs, x, y, ha, hb, h => by
    simp only [List.cons_append, List.cons.injEq] at h
    obtain ⟨rfl, h2⟩ := h
    have has : '-' ∉ as := fun hm => ha (List.mem_cons_of_mem _ hm)
    have hbs : '-' ∉ bs := fun hm => hb (List.mem_cons_of_mem _ hm)
    obtain ⟨h3, h4⟩ := sepChunks_inj as bs x y has hbs h2
    exact ⟨by rw [h3], h4⟩

/-- C7 (amended): the namespacing map (owner, name) to "{owner}-{name}/" is
injective on repository identities whose owner contains no hyphen; with
hyphenated owners distinct pairs can collide. -/
theorem namespace_injectivity (o₁ n₁ o₂ n₂ : String) (f₁ f₂ : Bool)
    (hnc₁ : ¬ (n₁ = "TheRock" ∧ o₁ = "ROCm" ∧ f₁ = false))
    (hnc₂ : ¬ (n₂ = "TheRock" ∧ o₂ = "ROCm" ∧ f₂ = false))
    (h₁ : '-' ∉ o₁.data) (h₂ : '-' ∉ o₂.data)
    (heq : externalRepoOf o₁ n₁ f₁ = externalRepoOf o₂ n₂ f₂) :
    o₁ = o₂ ∧ n₁ = n₂ := by
  unfold externalRepoOf at heq
  rw [if_neg hnc₁, if_neg hnc₂] at heq
  have hd := congrArg String.data heq
  simp only [String.data_append] at hd
  have hd' : o₁.data ++ '-' :: (n₁.data ++ ['/']) =
      o₂.data ++ '-' :: (n₂.data ++ ['/']) := by
    simpa [List.append_assoc] using hd
  obtain ⟨ho, hn⟩ := sepChunks_inj _ _ _ _ h₁ h₂ hd'
  exact ⟨string_data_inj ho, string_data_inj (List.append_cancel_right hn)⟩

/-- C7 counterexample: the distinct non-canonical pairs (a-b, c) and
(a, b-c) produce the same namespace value "a-b-c/". -/
theorem namespace_injectivity_counterexample :
    externalRepoOf "a-b" "c" true = externalRepoOf "a" "b-c" true ∧
    ¬ (("a-b" : String) = "a" ∧ ("c" : String) = "b-c") :=
  ⟨rfl, by decide⟩

/-- Witness for C7: hyphen-free owners satisfy the amended injectivity. -/
theorem namespace_injectivity_witness :
    ('-' ∉ ("SomeOrg" : String).data) ∧
    (("SomeOrg" : String) = "SomeOrg" ∧ ("SomeRepo" : String) = "SomeRepo") :=
  ⟨by decide,
    namespace_injectivity "SomeOrg" "SomeRepo" "SomeOrg" "SomeRepo" true true
      (by decide) (by decide) (by decide) (by decide) rfl⟩

/-- C8 (amended): when fork status comes from the environment, any
IS_PR_FROM_FORK value other than the exact string "true" is silently
treated as false (the source compares with a string literal): resolution
succeeds and uses fork = false, it does not fail fast. -/
theorem env_fork_flag_silent_default
    (env : Env) (gh : Option String) (s owner name : String)
    (hf : env.IS_PR_FROM_FORK = some s) (hs : s ≠ "true")
    (hsplit : splitOwnerRepo (effectiveGithubRepository env gh) =
      some (owner, name)) :
    ∃ bucket, retrieve_bucket_info env gh none =
      Except.ok (externalRepoOf owner name false, bucket) := by
  have hflag : envForkFlag env = false := by
    unfold envForkFlag
    rw [hf]
    simpa using hs
  rw [retrieve_none_eq, hflag]
  unfold afterMeta
  rw [hsplit]
  exact ⟨_, rfl⟩

/-- C8 counterexample: IS_PR_FROM_FORK="garbage" (or "TRUE") does not make
resolution fail: it succeeds with the non-fork canonical result, while the
strict parser str2bool of github_actions_utils.py rejects "garbage" and
accepts "TRUE" as true. -/
theorem env_fork_flag_counterexample :
    retrieve_bucket_info ⟨none, some "garbage", none⟩ none none =
      Except.ok ("", "therock-ci-artifacts") ∧
    str2bool (some "garbage") =
      Except.error "Invalid string value for boolean conversion: garbage" ∧
    str2bool (some "TRUE") = Except.ok true ∧
    retrieve_bucket_info ⟨none, some "TRUE", none⟩ none none =
      Except.ok ("", "therock-ci-artifacts") :=
  ⟨rfl, rfl, rfl, rfl⟩

/-- Witness for C8: IS_PR_FROM_FORK="TRUE" resolves as non-fork. -/
theorem env_fork_flag_silent_default_witness :
    ("TRUE" : String) ≠ "true" ∧
    (∃ bucket, retrieve_bucket_info ⟨none, some "TRUE", none⟩ none none =
      Except.ok (externalRepoOf "ROCm" "TheRock" false, bucket)) :=
  ⟨by decide,
    env_fork_flag_silent_default ⟨none, some "TRUE", none⟩ none "TRUE"
      "ROCm" "TheRock" rfl (by decide) rfl⟩

/-- C10 (amended): whenever the updated_at string is rejected by the
strptime pattern (which does accept unpadded variants), the whole
resolution raises the ValueError; the timestamp is never demoted to an
unknown date. -/
theorem strict_timestamp_parsing
    (env : Env) (gh : Option String) (w : WorkflowRun)
    (hbad : strptimeYmdHMSZ w.updated_at = none) :
    retrieve_bucket_info env gh (some w) =
      Except.error "ValueError: time data does not match format Y-m-dTH:M:SZ" := by
  have h' : retrieve_bucket_info env gh (some w) =
      (match strptimeYmdHMSZ w.updated_at with
        | some dt => afterMeta env (effectiveGithubRepository env gh)
            (decide (w.head_repository_full_name ≠
              effectiveGithubRepository env gh)) (some dt)
        | none => Except.error
            "ValueError: time data does not match format Y-m-dTH:M:SZ") := rfl
  rw [h', hbad]

/-- C10 counterexample: "2025-1-1T0:0:0Z" is not of the exactly padded
shape, yet strptime accepts it (the CPython field regexes allow unpadded
digits) and resolution succeeds, even applying the legacy-date rule. -/
theorem strict_timestamp_parsing_counterexample :
    isStrictPaddedTimestamp "2025-1-1T0:0:0Z" = false ∧
    strptimeYmdHMSZ "2025-1-1T0:0:0Z" = some ⟨2025, 1, 1, 0, 0, 0⟩ ∧
    retrieve_bucket_info ⟨none, none, none⟩ none
      (some ⟨"1", "ROCm/TheRock", "2025-1-1T0:0:0Z"⟩) =
      Except.ok ("", "therock-artifacts") :=
  ⟨rfl, rfl, rfl⟩

/-- Witness for C10: a "+00:00" offset timestamp is rejected and the
resolution raises. -/
theorem strict_timestamp_parsing_witness :
    strptimeYmdHMSZ "2025-11-11T16:18:48+00:00" = none ∧
    retrieve_bucket_info ⟨none, none, none⟩ none
      (some ⟨"1", "ROCm/TheRock", "2025-11-11T16:18:48+00:00"⟩) =
      Except.error "ValueError: time data does not match format Y-m-dTH:M:SZ" :=
  ⟨rfl,
    strict_timestamp_parsing ⟨none, none, none⟩ none
      ⟨"1", "ROCm/TheRock", "2025-11-11T16:18:48+00:00"⟩ rfl⟩

end TheRock
